import Mathlib

/-
Verification development for the gtsfm two-stage reconstruction pipeline.

Shallow embedding of:
  * src/gtsfm/common/sfm_track.py        (2d measurements, 2d tracks, track builder)
  * src/gtsfm/data_association/data_assoc.py  (DataAssociation.run)
  * src/gtsfm/bundle/bundle_adjustment.py     (BundleAdjustmentOptimizer, values_to_gtsfm_data)

Conventions:
  * numpy float64 pixel coordinates are embedded as rationals (no claim below
    depends on float rounding; coordinates are only stored, compared with
    np.allclose, and carried around).
  * Python code that can raise is embedded in `Except String`.
  * External gtsam components (the DSF map, the Levenberg-Marquardt optimizer)
    are embedded by their documented deterministic semantics; the optimizer is a
    parameter of `BundleAdjustmentOptimizer.run`, since its numerics are
    irrelevant to the claims and only its success/failure behaviour matters.
  * Repository classes that are not under src/ (Keypoints, GtsfmData,
    TriangulationExitCode) are modelled from the spec; each such definition
    carries a doc comment starting with "Modelled from the spec:".
-/

namespace Gtsfm

/-- Absolute value on the rationals, kept executable by kernel reduction. -/
def qabs (x : ℚ) : ℚ :=
  if x < 0 then -x else x

/-- np.allclose on one coordinate, with numpy's default tolerances
atol = 1e-8 and rtol = 1e-5: |a - b| <= atol + rtol * |b|. -/
def npCloseQ (a b : ℚ) : Bool :=
  qabs (a - b) ≤ 1 / 100000000 + qabs b / 100000

/-- A 2d measurement (class SfmMeasurement in sfm_track.py): camera index `i`
and pixel coordinate `uv`. -/
structure SfmMeasurement where
  i : Nat
  uv : ℚ × ℚ
deriving DecidableEq

/-- SfmMeasurement.__eq__: camera indices equal and np.allclose on the 2d
coordinates. -/
def SfmMeasurement.pyEq (m other : SfmMeasurement) : Bool :=
  m.i == other.i && npCloseQ m.uv.1 other.uv.1 && npCloseQ m.uv.2 other.uv.2

/-- A 2d track (class SfmTrack2d in sfm_track.py): a list of measurements. -/
structure SfmTrack2d where
  measurements : List SfmMeasurement
deriving DecidableEq

def SfmTrack2d.number_measurements (t : SfmTrack2d) : Nat :=
  t.measurements.length

/-- SfmTrack2d.__eq__: equal measurement counts, and every measurement of
`self` occurs (by SfmMeasurement.__eq__) somewhere in `other.measurements`
(Python's `in` test). -/
def SfmTrack2d.pyEq (t other : SfmTrack2d) : Bool :=
  t.measurements.length == other.measurements.length &&
    t.measurements.all (fun m => other.measurements.any (fun m2 => m.pyEq m2))

/-- SfmTrack2d.validate_unique_cameras: `len(set(idxs)) == len(idxs)` over the
camera indices of the measurements. -/
def SfmTrack2d.validate_unique_cameras (t : SfmTrack2d) : Bool :=
  let track_cam_idxs := t.measurements.map (·.i)
  track_cam_idxs.dedup.length == track_cam_idxs.length

/-- Modelled from the spec: the Keypoints class (gtsfm/common/keypoints.py) is
not under src/. Per the spec's external-interface section it is a per-image
list of 2d pixel coordinates held in a numpy array; the track builder checks
the array's dimensionality, so the array's `ndim` is recorded explicitly
(2 for a well-formed N x 2 coordinate array). -/
structure Keypoints where
  ndim : Nat
  coords : List (ℚ × ℚ)
deriving DecidableEq

/-- gtsam.IndexPair: an (image index, keypoint index) identifier. -/
structure IndexPair where
  i : Nat
  j : Nat
deriving DecidableEq

/-- The state of gtsam's DSFMapIndexPair, observed through `sets()`: the
current list of merged equivalence classes (each class a duplicate-free list
of elements, classes pairwise disjoint). -/
def dsfFind {α : Type} [DecidableEq α] (cs : List (List α)) (x : α) : Option (List α) :=
  cs.find? (fun c => decide (x ∈ c))

/-- gtsam DSFMap.merge: union the classes of `a` and `b`, creating singleton
classes for unseen elements. -/
def dsfMerge {α : Type} [DecidableEq α] (cs : List (List α)) (a b : α) : List (List α) :=
  let ca := (dsfFind cs a).getD [a]
  let cb := (dsfFind cs b).getD [b]
  if ca = cb then
    if (dsfFind cs a).isSome then cs else cs ++ [ca]
  else
    cs.filter (fun c => decide (c ≠ ca ∧ c ≠ cb)) ++ [ca ++ cb]

/-- The flat list of identifier pairs merged by the double loop
`for (i1, i2), k_pairs in matches_dict.items(): for (k1, k2) in k_pairs`. -/
def matchPairs (matches_dict : List ((Nat × Nat) × List (Nat × Nat))) :
    List (IndexPair × IndexPair) :=
  matches_dict.flatMap (fun m => m.2.map (fun kk => (⟨m.1.1, kk.1⟩, ⟨m.1.2, kk.2⟩)))

/-- The DSF equivalence classes after all merges (`dsf.sets()`). -/
def dsfClassesOf (matches_dict : List ((Nat × Nat) × List (Nat × Nat))) :
    List (List IndexPair) :=
  (matchPairs matches_dict).foldl (fun cs ab => dsfMerge cs ab.1 ab.2) []

/-- One measurement `SfmMeasurement(i, keypoints_list[i].coordinates[k])`;
Python list indexing raises IndexError when out of range. -/
def buildMeasurement (keypoints_list : List Keypoints) (p : IndexPair) :
    Except String SfmMeasurement :=
  match keypoints_list.get? p.i with
  | none => .error "IndexError: list index out of range"
  | some kp =>
    match kp.coords.get? p.j with
    | none => .error "IndexError: index out of range"
    | some uv => .ok ⟨p.i, uv⟩

/-- The measurement list of one DSF equivalence class, in class order; the
first out-of-range access aborts (Python's loop raises). -/
def buildMeasurements (keypoints_list : List Keypoints) :
    List IndexPair → Except String (List SfmMeasurement)
  | [] => .ok []
  | p :: ps =>
    match buildMeasurement keypoints_list p with
    | .error e => .error e
    | .ok m =>
      match buildMeasurements keypoints_list ps with
      | .error e => .error e
      | .ok ms => .ok (m :: ms)

/-- The track built from one DSF equivalence class. -/
def buildTrack (keypoints_list : List Keypoints) (c : List IndexPair) :
    Except String SfmTrack2d :=
  match buildMeasurements keypoints_list c with
  | .error e => .error e
  | .ok ms => .ok ⟨ms⟩

/-- The candidate tracks of all equivalence classes, class by class. -/
def buildCandidateTracks (keypoints_list : List Keypoints) :
    List (List IndexPair) → Except String (List SfmTrack2d)
  | [] => .ok []
  | c :: cs =>
    match buildTrack keypoints_list c with
    | .error e => .error e
    | .ok t =>
      match buildCandidateTracks keypoints_list cs with
      | .error e => .error e
      | .ok ts => .ok (t :: ts)

/-- The literal message of the dimensionality exception in
generate_tracks_from_pairwise_matches. -/
def dimErrorMsg : String :=
  "Dimensions for Keypoint coordinates incorrect. Array needs to be 2D"

/-- SfmTrack2d.generate_tracks_from_pairwise_matches: check that every
keypoint coordinate array is 2-dimensional (raising before any union-find
work otherwise), merge all correspondence pairs in a DSF, build one candidate
track per equivalence class, and keep exactly the candidates passing
validate_unique_cameras. The C++ set iteration order inside a class is
abstracted by the merge order; every claim below is order-insensitive. -/
def generate_tracks_from_pairwise_matches
    (matches_dict : List ((Nat × Nat) × List (Nat × Nat)))
    (keypoints_list : List Keypoints) : Except String (List SfmTrack2d) :=
  if ¬ (keypoints_list.all (fun kps => kps.ndim == 2)) then
    .error dimErrorMsg
  else
    match buildCandidateTracks keypoints_list (dsfClassesOf matches_dict) with
    | .error e => .error e
    | .ok raw => .ok (raw.filter (fun t => t.validate_unique_cameras))

/-- gtsam Pose3 (an SE(3) transform). No claim computes with poses, so the
type is kept as an opaque token. -/
structure Pose3 where
  tok : Nat
deriving DecidableEq

/-- gtsam Cal3Bundler: focal length and two radial-distortion coefficients. -/
structure Cal3Bundler where
  f : ℚ
  k1 : ℚ
  k2 : ℚ
deriving DecidableEq

/-- gtsam Point3, a 3d point. -/
structure Point3 where
  x : ℚ
  y : ℚ
  z : ℚ
deriving DecidableEq

/-- gtsam PinholeCameraCal3Bundler: a pose plus a calibration. -/
structure PinholeCameraCal3Bundler where
  pose : Pose3
  calibration : Cal3Bundler
deriving DecidableEq

/-- gtsam SfmTrack: a 3d point plus the 2d measurements supporting it.
`add_measurement` appends, so `measurements` is in insertion order. -/
structure SfmTrack where
  point3 : Point3
  measurements : List (Nat × (ℚ × ℚ))
deriving DecidableEq

def SfmTrack.number_measurements (t : SfmTrack) : Nat :=
  t.measurements.length

/-- Modelled from the spec: GtsfmData (gtsfm/common/gtsfm_data.py) is not
under src/. Per the spec's SceneModel: it owns a mapping from camera index to
camera (not all indices populated) and an ordered sequence of landmarks
(tracks), and records the number of images. -/
structure GtsfmData where
  number_images : Nat
  cameras : List (Nat × PinholeCameraCal3Bundler)
  tracks : List SfmTrack
deriving DecidableEq

/-- The constructor call `GtsfmData(number_images)`: an empty scene. -/
def GtsfmData.empty (number_images : Nat) : GtsfmData :=
  ⟨number_images, [], []⟩

def GtsfmData.add_camera (d : GtsfmData) (i : Nat) (cam : PinholeCameraCal3Bundler) :
    GtsfmData :=
  { d with cameras := d.cameras ++ [(i, cam)] }

def GtsfmData.add_track (d : GtsfmData) (t : SfmTrack) : GtsfmData :=
  { d with tracks := d.tracks ++ [t] }

def GtsfmData.number_tracks (d : GtsfmData) : Nat :=
  d.tracks.length

def GtsfmData.get_valid_camera_indices (d : GtsfmData) : List Nat :=
  d.cameras.map Prod.fst

def GtsfmData.get_track_lengths (d : GtsfmData) : List Nat :=
  d.tracks.map SfmTrack.number_measurements

/-- A node of the camera/landmark visibility graph (landmarks identified by
their position in the track list). -/
inductive SceneNode where
  | cam (i : Nat)
  | lm (j : Nat)
deriving DecidableEq

/-- Modelled from the spec: GtsfmData.select_largest_connected_component is
not under src/. Per the spec's SceneModel: build a bipartite graph with
camera nodes and landmark nodes and an edge for every measurement, compute
connected components, and return a new SceneModel containing only the cameras
and landmarks in the single largest component (by total node count), with a
deterministic first-encountered tie-break. -/
def GtsfmData.select_largest_connected_component (d : GtsfmData) : GtsfmData :=
  let base : List (List SceneNode) :=
    d.get_valid_camera_indices.map (fun i => [SceneNode.cam i]) ++
      (List.range d.tracks.length).map (fun j => [SceneNode.lm j])
  let edges : List (SceneNode × SceneNode) :=
    d.tracks.enum.flatMap
      (fun jt => jt.2.measurements.map (fun m => (SceneNode.cam m.1, SceneNode.lm jt.1)))
  let comps := edges.foldl (fun cs e => dsfMerge cs e.1 e.2) base
  let best := comps.foldl (fun acc c => if acc.length < c.length then c else acc) []
  { number_images := d.number_images
    cameras := d.cameras.filter (fun ic => decide (SceneNode.cam ic.1 ∈ best))
    tracks := (d.tracks.enum.filter (fun jt => decide (SceneNode.lm jt.1 ∈ best))).map Prod.snd }

/-- Modelled from the spec: the triangulation exit codes of
gtsfm/data_association/point3d_initializer.py (not under src/), per the
spec's LandmarkInitializer section. -/
inductive TriangulationExitCode where
  | SUCCESS
  | CHEIRALITY_FAILURE
  | SMALL_BASELINE
  | EXCEEDS_REPROJ_THRESH
deriving DecidableEq

/-- Modelled from the spec: point3d_initializer.py is not under src/, and the
spec describes the acceptance check of DataAssociation.run as combining
validate_track with "a stray always-true enum-membership test": a bare
TriangulationExitCode member used as a Python condition is truthy. -/
def TriangulationExitCode.pyTruthy (_ : TriangulationExitCode) : Bool :=
  true

/-- Modelled from the spec: the triangulation modes of
point3d_initializer.py (not under src/): a direct mode and a robust RANSAC
mode. -/
inductive TriangulationParam where
  | NO_RANSAC
  | RANSAC_SAMPLE_UNIFORM
deriving DecidableEq

/-- The outcome of Point3dInitializer.triangulate on one 2d track: an
optional 3d track, an optional average reprojection error, and an exit code.
point3d_initializer.py is not under src/, so the triangulation itself is a
parameter of DataAssociation.run; the claims about run hold for every
triangulation behaviour. -/
abbrev TriangulateFn :=
  SfmTrack2d → Option SfmTrack × Option ℚ × TriangulationExitCode

/-- The DataAssociation NamedTuple of data_assoc.py. The visualization flag
and image list feed only the optional patch-dump side effect and are
omitted. -/
structure DataAssociation where
  reproj_error_thresh : ℚ
  min_track_len : Nat
  mode : TriangulationParam
  min_tri_angle_deg : Option ℚ := none
  num_ransac_hypotheses : Option Nat := none
deriving DecidableEq

/-- DataAssociation.__validate_track: the track is non-null and its
measurement count is at least min_track_len. -/
def DataAssociation.validate_track (da : DataAssociation) (sfm_track : Option SfmTrack) :
    Bool :=
  match sfm_track with
  | none => false
  | some t => decide (da.min_track_len ≤ t.number_measurements)

/-- The running state of the track loop of DataAssociation.run: the
accumulating scene, the list of exit codes seen (the Counter), and the
accepted- and rejected-track average errors. -/
structure DAState where
  data : GtsfmData
  codes : List TriangulationExitCode
  accepted_errors : List (Option ℚ)
  rejected_errors : List (Option ℚ)
deriving DecidableEq

/-- One iteration of the track loop of DataAssociation.run (lines 116-125):
count the exit code, then accept the track when
`sfm_track is not None and self.__validate_track(sfm_track) and
TriangulationExitCode.SUCCESS` holds, else append to the rejected errors when
the (equally truthy) `elif TriangulationExitCode.EXCEEDS_REPROJ_THRESH`
fires. -/
def DataAssociation.daStep (da : DataAssociation) (st : DAState)
    (res : Option SfmTrack × Option ℚ × TriangulationExitCode) : DAState :=
  let (sfm_track, avg_track_reproj_error, triangulation_exit_code) := res
  let st := { st with codes := st.codes ++ [triangulation_exit_code] }
  if sfm_track.isSome && da.validate_track sfm_track
      && TriangulationExitCode.pyTruthy TriangulationExitCode.SUCCESS then
    match sfm_track with
    | some t =>
        { st with
          data := st.data.add_track t
          accepted_errors := st.accepted_errors ++ [avg_track_reproj_error] }
    | none => st
  else if TriangulationExitCode.pyTruthy TriangulationExitCode.EXCEEDS_REPROJ_THRESH then
    { st with rejected_errors := st.rejected_errors ++ [avg_track_reproj_error] }
  else
    st

/-- Python `/` on numbers: raises ZeroDivisionError on a zero divisor. -/
def pydiv (a b : ℚ) : Except String ℚ :=
  if b = 0 then .error "ZeroDivisionError: division by zero" else .ok (a / b)

/-- The numeric contents of the GtsfmMetricsGroup built by
DataAssociation.run (histogram plotting flags dropped; the error arrays keep
the possible Nones that numpy would cast to nan). -/
structure DataAssocMetrics where
  track_lengths_2d : List Nat
  accepted_tracks_ratio : ℚ
  triangulation_success_ratio : ℚ
  cheirality_failure_ratio : ℚ
  small_baseline_failure_ratio : ℚ
  num_accepted_tracks : Nat
  track_lengths_3d : List Nat
  accepted_track_avg_errors : List (Option ℚ)
  rejected_track_avg_errors : List (Option ℚ)
deriving DecidableEq

/-- DataAssociation.run: build 2d tracks, triangulate each, accumulate
accepted tracks onto the cameras, select the largest connected component,
and aggregate the metrics. Logging calls and the optional patch
visualization are side effects without influence on the result and are
omitted; np.mean of the 2d track lengths is only logged. -/
def DataAssociation.run (da : DataAssociation) (triangulate : TriangulateFn)
    (num_images : Nat) (cameras : List (Nat × PinholeCameraCal3Bundler))
    (corr_idxs_dict : List ((Nat × Nat) × List (Nat × Nat)))
    (keypoints_list : List Keypoints) :
    Except String (GtsfmData × DataAssocMetrics) :=
  match generate_tracks_from_pairwise_matches corr_idxs_dict keypoints_list with
  | .error e => .error e
  | .ok tracks_2d =>
    let init : GtsfmData :=
      cameras.foldl (fun d ic => d.add_camera ic.1 ic.2) (GtsfmData.empty num_images)
    let st := tracks_2d.foldl (fun st t => da.daStep st (triangulate t)) ⟨init, [], [], []⟩
    let connected_data := st.data.select_largest_connected_component
    match pydiv connected_data.number_tracks tracks_2d.length with
    | .error e => .error e
    | .ok accepted_tracks_ratio =>
      match pydiv (st.codes.count TriangulationExitCode.SUCCESS) tracks_2d.length with
      | .error e => .error e
      | .ok triangulation_success_ratio =>
        match pydiv (st.codes.count TriangulationExitCode.CHEIRALITY_FAILURE)
            tracks_2d.length with
        | .error e => .error e
        | .ok cheirality_failure_ratio =>
          match pydiv (st.codes.count TriangulationExitCode.SMALL_BASELINE)
              tracks_2d.length with
          | .error e => .error e
          | .ok small_baseline_failure_ratio =>
            .ok (connected_data,
              { track_lengths_2d := tracks_2d.map SfmTrack2d.number_measurements
                accepted_tracks_ratio := accepted_tracks_ratio
                triangulation_success_ratio := triangulation_success_ratio
                cheirality_failure_ratio := cheirality_failure_ratio
                small_baseline_failure_ratio := small_baseline_failure_ratio
                num_accepted_tracks := connected_data.number_tracks
                track_lengths_3d := connected_data.get_track_lengths
                accepted_track_avg_errors := st.accepted_errors
                rejected_track_avg_errors := st.rejected_errors })

/-- The spec's intended acceptance rule, written from its words for the
refinement comparison of claim C1: keep exactly the triangulated tracks that
are non-null with measurement count at least min_track_len. -/
def specAcceptedTracks (min_track_len : Nat) (triangulate : TriangulateFn)
    (tracks_2d : List SfmTrack2d) : List SfmTrack :=
  tracks_2d.filterMap (fun t =>
    match triangulate t with
    | (some st, _, _) =>
        if min_track_len ≤ st.number_measurements then some st else none
    | (none, _, _) => none)

/-- The gtsam symbol shorthands of bundle_adjustment.py: X(i) camera pose,
K(i) calibration, P(j) 3d point. -/
inductive BAKey where
  | X (i : Nat)
  | K (i : Nat)
  | P (j : Nat)
deriving DecidableEq

/-- A value stored in a gtsam Values container. -/
inductive BAValue where
  | pose (p : Pose3)
  | cal (c : Cal3Bundler)
  | point (p : Point3)
deriving DecidableEq

/-- The kind tag of a stored value (gtsam values are dynamically typed and
the typed accessors throw on a kind mismatch). -/
inductive BAKind where
  | pose
  | cal
  | point
deriving DecidableEq

def BAValue.kindOf : BAValue → BAKind
  | .pose _ => .pose
  | .cal _ => .cal
  | .point _ => .point

/-- gtsam Values, as the insertion-ordered association list of its entries. -/
abbrev Values := List (BAKey × BAValue)

/-- Values.insert. gtsam throws on a duplicate key; the embedding appends,
and every theorem needing uniqueness assumes distinct camera indices (the
camera mapping is a Python dict, so indices are necessarily distinct). -/
def Values.insertVal (v : Values) (k : BAKey) (x : BAValue) : Values :=
  v ++ [(k, x)]

/-- Values.atPose3: throws when the key is absent or holds a non-pose. -/
def Values.atPose3 (v : Values) (k : BAKey) : Except String Pose3 :=
  match v.lookup k with
  | some (BAValue.pose p) => .ok p
  | _ => .error "ValuesKeyDoesNotExist"

/-- Values.atCal3Bundler: throws when the key is absent or holds a
non-calibration. -/
def Values.atCal3Bundler (v : Values) (k : BAKey) : Except String Cal3Bundler :=
  match v.lookup k with
  | some (BAValue.cal c) => .ok c
  | _ => .error "ValuesKeyDoesNotExist"

/-- Values.atPoint3: throws when the key is absent or holds a non-point. -/
def Values.atPoint3 (v : Values) (k : BAKey) : Except String Point3 :=
  match v.lookup k with
  | some (BAValue.point p) => .ok p
  | _ => .error "ValuesKeyDoesNotExist"

/-- gtsam noiseModel.Isotropic.Sigma(dim, sigma). -/
structure IsotropicNoise where
  dim : Nat
  sigma : ℚ
deriving DecidableEq

/-- The factors bundle_adjustment.py pushes into the NonlinearFactorGraph. -/
inductive BAFactor where
  | priorFactorPose3 (key : BAKey) (prior : Pose3) (noise : IsotropicNoise)
  | priorFactorCal3Bundler (key : BAKey) (prior : Cal3Bundler) (noise : IsotropicNoise)
  | generalSFMFactor2 (uv : ℚ × ℚ) (noise : IsotropicNoise)
      (poseKey pointKey calKey : BAKey)
deriving DecidableEq

abbrev NonlinearFactorGraph := List BAFactor

/-- The variable keys a factor references. -/
def BAFactor.keys : BAFactor → List BAKey
  | .priorFactorPose3 k _ _ => [k]
  | .priorFactorCal3Bundler k _ _ => [k]
  | .generalSFMFactor2 _ _ x p k => [x, p, k]

/-- All variable keys referenced by a factor graph. -/
def graphKeys (g : NonlinearFactorGraph) : List BAKey :=
  g.flatMap BAFactor.keys

def CAM_POSE3_DOF : Nat := 6
def CAM_CAL3BUNDLER_DOF : Nat := 3
def IMG_MEASUREMENT_DIM : Nat := 2
def CAM_POSE3_PRIOR_NOISE_SIGMA : ℚ := 1 / 10
def CAM_CAL3BUNDLER_PRIOR_NOISE_SIGMA : ℚ := 1 / 10
def MEASUREMENT_NOISE_SIGMA : ℚ := 1

/-- BundleAdjustmentOptimizer configuration. -/
structure BundleAdjustmentOptimizer where
  output_reproj_error_thresh : ℚ
  shared_calib : Bool
deriving DecidableEq

/-- BundleAdjustmentOptimizer.__add_camera_prior: always a pose prior; a
calibration prior only when `camera_idx == 0 or not self._shared_calib`. -/
def BundleAdjustmentOptimizer.add_camera_prior (ba : BundleAdjustmentOptimizer)
    (graph : NonlinearFactorGraph) (camera : PinholeCameraCal3Bundler)
    (camera_idx : Nat) : NonlinearFactorGraph :=
  let graph := graph ++
    [BAFactor.priorFactorPose3 (BAKey.X camera_idx) camera.pose
      ⟨CAM_POSE3_DOF, CAM_POSE3_PRIOR_NOISE_SIGMA⟩]
  if camera_idx == 0 || !ba.shared_calib then
    graph ++
      [BAFactor.priorFactorCal3Bundler (BAKey.K camera_idx) camera.calibration
        ⟨CAM_CAL3BUNDLER_DOF, CAM_CAL3BUNDLER_PRIOR_NOISE_SIGMA⟩]
  else
    graph

/-- BundleAdjustmentOptimizer.__add_camera_initial_value: always the pose; a
calibration value only when `camera_idx == 0 or not self._shared_calib`. -/
def BundleAdjustmentOptimizer.add_camera_initial_value (ba : BundleAdjustmentOptimizer)
    (initial_values : Values) (camera : PinholeCameraCal3Bundler)
    (camera_idx : Nat) : Values :=
  let initial_values :=
    Values.insertVal initial_values (BAKey.X camera_idx) (BAValue.pose camera.pose)
  if camera_idx == 0 || !ba.shared_calib then
    Values.insertVal initial_values (BAKey.K camera_idx) (BAValue.cal camera.calibration)
  else
    initial_values

/-- BundleAdjustmentOptimizer.__add_measurement_factor: one
GeneralSFMFactor2Cal3Bundler per measurement of the track, with calibration
key `K(0 if self._shared_calib else i)`. -/
def BundleAdjustmentOptimizer.add_measurement_factor (ba : BundleAdjustmentOptimizer)
    (graph : NonlinearFactorGraph) (track : SfmTrack) (track_idx : Nat)
    (measurement_noise : IsotropicNoise) : NonlinearFactorGraph :=
  graph ++ track.measurements.map (fun m =>
    BAFactor.generalSFMFactor2 m.2 measurement_noise (BAKey.X m.1)
      (BAKey.P track_idx) (BAKey.K (if ba.shared_calib then 0 else m.1)))

/-- The graph- and initial-values-building phase of
BundleAdjustmentOptimizer.run: the track loop (measurement factors plus P(j)
initial points), then the camera loop (camera priors plus camera initial
values; iterating the valid camera indices and fetching each camera is
iterating the camera mapping's entries). -/
def BundleAdjustmentOptimizer.buildGraphAndValues (ba : BundleAdjustmentOptimizer)
    (initial_data : GtsfmData) : NonlinearFactorGraph × Values :=
  let measurement_noise : IsotropicNoise := ⟨IMG_MEASUREMENT_DIM, MEASUREMENT_NOISE_SIGMA⟩
  let gv :=
    initial_data.tracks.enum.foldl
      (fun gv jt =>
        (ba.add_measurement_factor gv.1 jt.2 jt.1 measurement_noise,
         Values.insertVal gv.2 (BAKey.P jt.1) (BAValue.point jt.2.point3)))
      (([] : NonlinearFactorGraph), ([] : Values))
  initial_data.cameras.foldl
    (fun gv ic =>
      (ba.add_camera_prior gv.1 ic.2 ic.1,
       ba.add_camera_initial_value gv.2 ic.2 ic.1))
    gv

/-- The external Levenberg-Marquardt solve (gtsam), abstracted as a function
from graph and initial values to either a fault or result values. -/
abbrev Optimizer := NonlinearFactorGraph → Values → Except Unit Values

/-- The camera loop of values_to_gtsfm_data: for every valid camera index, a
camera rebuilt from the solved pose at X(i) and the solved calibration at
K(0) when shared else K(i); the typed accessors throw on a missing key. -/
def camerasFromValues (values : Values) (shared_calib : Bool) :
    List (Nat × PinholeCameraCal3Bundler) →
      Except String (List (Nat × PinholeCameraCal3Bundler))
  | [] => .ok []
  | ic :: rest =>
    match Values.atPose3 values (BAKey.X ic.1) with
    | .error e => .error e
    | .ok p =>
      match Values.atCal3Bundler values (BAKey.K (if shared_calib then 0 else ic.1)) with
      | .error e => .error e
      | .ok c =>
        match camerasFromValues values shared_calib rest with
        | .error e => .error e
        | .ok others => .ok ((ic.1, PinholeCameraCal3Bundler.mk p c) :: others)

/-- The track loop of values_to_gtsfm_data: for every (index, input track)
pair, a new SfmTrack around the solved point at P(j), with the input track's
measurements re-added in order. -/
def tracksFromValues (values : Values) :
    List (Nat × SfmTrack) → Except String (List SfmTrack)
  | [] => .ok []
  | jt :: rest =>
    match Values.atPoint3 values (BAKey.P jt.1) with
    | .error e => .error e
    | .ok pt =>
      match tracksFromValues values rest with
      | .error e => .error e
      | .ok others => .ok (SfmTrack.mk pt jt.2.measurements :: others)

/-- values_to_gtsfm_data: rebuild a GtsfmData from solved values — for every
valid camera index a camera with the solved pose and the solved calibration
(key K(0) when shared), and for every track index the solved point with the
input track's measurements re-added in order. The typed accessors throw on a
missing key. -/
def values_to_gtsfm_data (values : Values) (initial_data : GtsfmData)
    (shared_calib : Bool) : Except String GtsfmData :=
  match camerasFromValues values shared_calib initial_data.cameras with
  | .error e => .error e
  | .ok cameras =>
    match tracksFromValues values initial_data.tracks.enum with
    | .error e => .error e
    | .ok tracks => .ok ⟨initial_data.number_images, cameras, tracks⟩

/-- Modelled from the spec: GtsfmData.filter_landmarks is not under src/.
Per the spec's SceneModel: recompute each landmark's reprojection error and
drop the landmarks whose error exceeds the threshold, returning a new
SceneModel with the original unchanged. The numeric reprojection-error
computation runs through the camera projection model and is abstracted as
the parameter `errFn`. -/
def GtsfmData.filter_landmarks (d : GtsfmData) (errFn : SfmTrack → ℚ) (thresh : ℚ) :
    GtsfmData :=
  { d with tracks := d.tracks.filter (fun t => decide (errFn t ≤ thresh)) }

/-- BundleAdjustmentOptimizer.run: build the problem, solve inside
try/except (a solver fault is logged and turned into the empty
`GtsfmData(initial_data.number_images())`), then map the solved values back
and filter by the output reprojection-error threshold. The initial/final
graph error, the aggregate metrics and the json dump are diagnostics without
influence on the returned value and are omitted. -/
def BundleAdjustmentOptimizer.run (ba : BundleAdjustmentOptimizer)
    (optimize : Optimizer) (errFn : SfmTrack → ℚ) (initial_data : GtsfmData) :
    Except String GtsfmData :=
  let gv := ba.buildGraphAndValues initial_data
  match optimize gv.1 gv.2 with
  | .error _ => .ok (GtsfmData.empty initial_data.number_images)
  | .ok result_values =>
    match values_to_gtsfm_data result_values initial_data ba.shared_calib with
    | .error e => .error e
    | .ok optimized_data =>
      .ok (optimized_data.filter_landmarks errFn ba.output_reproj_error_thresh)

/-- The calibration prior factors of a graph. -/
def countCalPriors (g : NonlinearFactorGraph) : Nat :=
  (g.filter (fun f =>
    match f with
    | BAFactor.priorFactorCal3Bundler _ _ _ => true
    | _ => false)).length

/-- The calibration entries of a Values container. -/
def countCalValues (v : Values) : Nat :=
  (v.filter (fun kv =>
    match kv.2 with
    | BAValue.cal _ => true
    | _ => false)).length

/-! ## Closed forms of the per-item contributions of the graph build
(used to reason about the folds of buildGraphAndValues) -/

/-- The factors __add_camera_prior contributes for one camera entry. -/
def cameraPriorFactors (ba : BundleAdjustmentOptimizer)
    (ic : Nat × PinholeCameraCal3Bundler) : List BAFactor :=
  [BAFactor.priorFactorPose3 (BAKey.X ic.1) ic.2.pose
      ⟨CAM_POSE3_DOF, CAM_POSE3_PRIOR_NOISE_SIGMA⟩] ++
    (if ic.1 == 0 || !ba.shared_calib then
      [BAFactor.priorFactorCal3Bundler (BAKey.K ic.1) ic.2.calibration
        ⟨CAM_CAL3BUNDLER_DOF, CAM_CAL3BUNDLER_PRIOR_NOISE_SIGMA⟩]
    else [])

/-- The initial values __add_camera_initial_value contributes for one camera
entry. -/
def cameraInitialEntries (ba : BundleAdjustmentOptimizer)
    (ic : Nat × PinholeCameraCal3Bundler) : List (BAKey × BAValue) :=
  [(BAKey.X ic.1, BAValue.pose ic.2.pose)] ++
    (if ic.1 == 0 || !ba.shared_calib then
      [(BAKey.K ic.1, BAValue.cal ic.2.calibration)]
    else [])

/-- The measurement factors __add_measurement_factor contributes for one
(track index, track) pair. -/
def trackFactors (ba : BundleAdjustmentOptimizer) (jt : Nat × SfmTrack) :
    List BAFactor :=
  jt.2.measurements.map (fun m =>
    BAFactor.generalSFMFactor2 m.2 ⟨IMG_MEASUREMENT_DIM, MEASUREMENT_NOISE_SIGMA⟩
      (BAKey.X m.1) (BAKey.P jt.1) (BAKey.K (if ba.shared_calib then 0 else m.1)))

/-! ## Concrete example inputs used by witnesses and counterexamples -/

def exMatches : List ((Nat × Nat) × List (Nat × Nat)) := [((0, 1), [(0, 0)])]

def exKeypoints : List Keypoints := [⟨2, [(0, 0)]⟩, ⟨2, [(1, 1)]⟩]

def exTracks : List SfmTrack2d := [⟨[⟨0, (0, 0)⟩, ⟨1, (1, 1)⟩]⟩]

def exTriangulate : TriangulateFn :=
  fun _ => (none, none, TriangulationExitCode.CHEIRALITY_FAILURE)

def exPose : Pose3 := ⟨0⟩

def exCal : Cal3Bundler := ⟨1, 0, 0⟩

def exCamera : PinholeCameraCal3Bundler := ⟨exPose, exCal⟩

/-- A scene whose single valid camera index is 1 (index 0 absent). -/
def exSceneNoCam0 : GtsfmData := ⟨2, [(1, exCamera)], [⟨⟨0, 0, 0⟩, [(1, (0, 0))]⟩]⟩

/-- A zero-landmark scene whose single valid camera index is 1. -/
def exSceneZeroTracks : GtsfmData := ⟨2, [(1, exCamera)], []⟩

/-- A scene with cameras 0 and 1 and one two-measurement track. -/
def exSceneTwoCams : GtsfmData :=
  ⟨2, [(0, exCamera), (1, exCamera)], [⟨⟨0, 0, 0⟩, [(0, (0, 0)), (1, (1, 1))]⟩]⟩

def baShared : BundleAdjustmentOptimizer := ⟨3, true⟩

def baPerCam : BundleAdjustmentOptimizer := ⟨3, false⟩

/-- A solver model that succeeds and returns its initial values unchanged. -/
def optIdentity : Optimizer := fun _ v => .ok v

/-- A solver model that always faults. -/
def optFail : Optimizer := fun _ _ => .error ()

/-- A solver model that faults exactly when the graph references a variable
missing from the initial values (the behaviour of gtsam's optimizer
construction). -/
def optMissingKeyFault : Optimizer := fun g v =>
  if g.any (fun f => f.keys.any (fun k => (List.lookup k v).isNone)) then .error ()
  else .ok v

def zeroErrFn : SfmTrack → ℚ := fun _ => 0

/-! ## Helper lemmas -/

lemma qabs_nonneg (x : ℚ) : 0 ≤ qabs x := by
  unfold qabs
  split
  · linarith
  · linarith

lemma npCloseQ_refl (x : ℚ) : npCloseQ x x = true := by
  unfold npCloseQ
  rw [decide_eq_true_eq]
  have h0 : qabs (x - x) = 0 := by
    rw [sub_self]
    unfold qabs
    norm_num
  rw [h0]
  have := qabs_nonneg x
  positivity

lemma measurement_pyEq_refl (m : SfmMeasurement) : m.pyEq m = true := by
  unfold SfmMeasurement.pyEq
  simp [npCloseQ_refl]

lemma validate_unique_cameras_iff (t : SfmTrack2d) :
    t.validate_unique_cameras = true ↔ (t.measurements.map SfmMeasurement.i).Nodup := by
  show ((t.measurements.map SfmMeasurement.i).dedup.length
      == (t.measurements.map SfmMeasurement.i).length) = true ↔ _
  rw [beq_iff_eq]
  constructor
  · intro hlen
    exact List.dedup_eq_self.mp ((List.dedup_sublist _).eq_of_length hlen)
  · intro h
    rw [List.dedup_eq_self.mpr h]

lemma buildMeasurement_i (kps : List Keypoints) (p : IndexPair) (m : SfmMeasurement)
    (h : buildMeasurement kps p = .ok m) : m.i = p.i := by
  unfold buildMeasurement at h
  split at h
  · cases h
  · split at h
    · cases h
    · cases h; rfl

lemma buildMeasurements_map_i (kps : List Keypoints) :
    ∀ (c : List IndexPair) (ms : List SfmMeasurement),
      buildMeasurements kps c = .ok ms → ms.map SfmMeasurement.i = c.map IndexPair.i := by
  intro c
  induction c with
  | nil => intro ms h; cases h; rfl
  | cons p ps ih =>
    intro ms h
    unfold buildMeasurements at h
    split at h
    · cases h
    · rename_i m hm
      split at h
      · cases h
      · rename_i rest hrest
        cases h
        simp only [List.map_cons]
        rw [ih rest hrest, buildMeasurement_i kps p m hm]

lemma buildTrack_map_i (kps : List Keypoints) (c : List IndexPair) (t : SfmTrack2d)
    (h : buildTrack kps c = .ok t) :
    t.measurements.map SfmMeasurement.i = c.map IndexPair.i := by
  unfold buildTrack at h
  split at h
  · cases h
  · rename_i ms hms
    cases h
    exact buildMeasurements_map_i kps c ms hms

lemma daStep_data_tracks (da : DataAssociation) (st : DAState)
    (res : Option SfmTrack × Option ℚ × TriangulationExitCode) :
    (da.daStep st res).data.tracks = st.data.tracks ++
      (match res with
       | (some t, _, _) =>
           if da.min_track_len ≤ t.number_measurements then [t] else []
       | (none, _, _) => []) := by
  obtain ⟨sfm_track, err, code⟩ := res
  unfold DataAssociation.daStep
  cases sfm_track with
  | none =>
    simp [DataAssociation.validate_track, TriangulationExitCode.pyTruthy]
  | some t =>
    by_cases hlen : da.min_track_len ≤ t.number_measurements
    · simp [DataAssociation.validate_track, TriangulationExitCode.pyTruthy, hlen,
        GtsfmData.add_track]
    · simp [DataAssociation.validate_track, TriangulationExitCode.pyTruthy, hlen]

lemma daStep_codes (da : DataAssociation) (st : DAState)
    (res : Option SfmTrack × Option ℚ × TriangulationExitCode) :
    (da.daStep st res).codes = st.codes ++ [res.2.2] := by
  obtain ⟨sfm_track, err, code⟩ := res
  unfold DataAssociation.daStep
  cases sfm_track with
  | none => simp [DataAssociation.validate_track, TriangulationExitCode.pyTruthy]
  | some t =>
    by_cases hlen : da.min_track_len ≤ t.number_measurements
    · simp [DataAssociation.validate_track, TriangulationExitCode.pyTruthy, hlen]
    · simp [DataAssociation.validate_track, TriangulationExitCode.pyTruthy, hlen]

lemma trackloop_codes (da : DataAssociation) (triangulate : TriangulateFn)
    (ts : List SfmTrack2d) (st0 : DAState) :
    (ts.foldl (fun st t => da.daStep st (triangulate t)) st0).codes
      = st0.codes ++ ts.map (fun t => (triangulate t).2.2) := by
  induction ts generalizing st0 with
  | nil => simp
  | cons t ts ih => rw [List.foldl_cons, ih, daStep_codes]; simp

lemma pydiv_ok (a b : ℚ) (hb : b ≠ 0) : pydiv a b = .ok (a / b) := by
  unfold pydiv
  rw [if_neg hb]

/-! ## Claim theorems -/

/-- Claim C1: in the track loop of DataAssociation.run, a triangulated track
is added to the accumulating scene exactly when the landmark returned by
triangulate is non-null and its measurement count is at least min_track_len;
the literal three-part Python condition (whose third conjunct is the truthy
bare enum member) accepts exactly the tracks of the spec's acceptance rule,
so no exit-code test affects acceptance. -/
theorem track_acceptance_iff (da : DataAssociation) (triangulate : TriangulateFn)
    (tracks_2d : List SfmTrack2d) (st0 : DAState) :
    (tracks_2d.foldl (fun st t => da.daStep st (triangulate t)) st0).data.tracks
      = st0.data.tracks ++ specAcceptedTracks da.min_track_len triangulate tracks_2d := by
  induction tracks_2d generalizing st0 with
  | nil => simp [specAcceptedTracks]
  | cons t ts ih =>
    rw [List.foldl_cons, ih, daStep_data_tracks]
    unfold specAcceptedTracks
    rw [List.filterMap_cons]
    cases htri : triangulate t with
    | mk o rest =>
      cases o with
      | none => simp
      | some s =>
        by_cases hlen : da.min_track_len ≤ s.number_measurements
        · simp [hlen]
        · simp [hlen]

/-- Claim C2: every track returned by generate_tracks_from_pairwise_matches
passes validate_unique_cameras, and the track of any union-find equivalence
class containing two identifiers with the same image index is absent from
the output. -/
theorem generated_tracks_have_unique_cameras
    (matches_dict : List ((Nat × Nat) × List (Nat × Nat)))
    (keypoints_list : List Keypoints) (ts : List SfmTrack2d)
    (h : generate_tracks_from_pairwise_matches matches_dict keypoints_list = .ok ts) :
    (∀ t ∈ ts, t.validate_unique_cameras = true) ∧
    (∀ c ∈ dsfClassesOf matches_dict, ¬ (c.map IndexPair.i).Nodup →
      ∀ t, buildTrack keypoints_list c = .ok t → t ∉ ts) := by
  unfold generate_tracks_from_pairwise_matches at h
  split at h
  · cases h
  · split at h
    · cases h
    · cases h
      constructor
      · intro t ht
        exact (List.mem_filter.mp ht).2
      · intro c _ hdup t hbuilt hmem
        have hv : t.validate_unique_cameras = true := (List.mem_filter.mp hmem).2
        have hnd := (validate_unique_cameras_iff t).mp hv
        rw [buildTrack_map_i keypoints_list c t hbuilt] at hnd
        exact hdup hnd

/-- Witness for C2 at a concrete correspondence set. -/
theorem generated_tracks_have_unique_cameras_witness :
    (generate_tracks_from_pairwise_matches exMatches exKeypoints = .ok exTracks) ∧
    ((∀ t ∈ exTracks, t.validate_unique_cameras = true) ∧
     (∀ c ∈ dsfClassesOf exMatches, ¬ (c.map IndexPair.i).Nodup →
       ∀ t, buildTrack exKeypoints c = .ok t → t ∉ exTracks)) :=
  ⟨rfl, generated_tracks_have_unique_cameras exMatches exKeypoints exTracks rfl⟩

/-- Claim C4 (amended): for every input whose correspondences yield at least
one candidate 2d track, DataAssociation.run returns a scene and metrics and
the success, cheirality-failure and small-baseline ratios equal the
exit-code counts divided by the number of input 2d tracks. (As stated over
all inputs the claim fails: with zero candidate tracks the ratio divisions
raise ZeroDivisionError, see the counterexample.) -/
theorem run_ratio_metrics (da : DataAssociation) (triangulate : TriangulateFn)
    (num_images : Nat) (cameras : List (Nat × PinholeCameraCal3Bundler))
    (corr_idxs_dict : List ((Nat × Nat) × List (Nat × Nat)))
    (keypoints_list : List Keypoints) (ts : List SfmTrack2d)
    (hgen : generate_tracks_from_pairwise_matches corr_idxs_dict keypoints_list = .ok ts)
    (hne : ts ≠ []) :
    ∃ scene metrics,
      da.run triangulate num_images cameras corr_idxs_dict keypoints_list
        = .ok (scene, metrics) ∧
      metrics.triangulation_success_ratio
        = ((ts.map (fun t => (triangulate t).2.2)).count TriangulationExitCode.SUCCESS : ℚ)
            / (ts.length : ℚ) ∧
      metrics.cheirality_failure_ratio
        = ((ts.map (fun t => (triangulate t).2.2)).count
              TriangulationExitCode.CHEIRALITY_FAILURE : ℚ) / (ts.length : ℚ) ∧
      metrics.small_baseline_failure_ratio
        = ((ts.map (fun t => (triangulate t).2.2)).count
              TriangulationExitCode.SMALL_BASELINE : ℚ) / (ts.length : ℚ) := by
  have hlen : ((ts.length : Nat) : ℚ) ≠ 0 := by
    have : ts.length ≠ 0 := by
      intro h0
      exact hne (List.length_eq_zero.mp h0)
    exact_mod_cast this
  unfold DataAssociation.run
  rw [hgen]
  dsimp only
  rw [trackloop_codes]
  simp only [List.nil_append]
  rw [pydiv_ok _ _ hlen, pydiv_ok _ _ hlen, pydiv_ok _ _ hlen, pydiv_ok _ _ hlen]
  exact ⟨_, _, rfl, rfl, rfl, rfl⟩

/-- Counterexample for C4 as stated: with zero candidate tracks (empty
correspondences), DataAssociation.run raises ZeroDivisionError instead of
returning a scene and metrics. -/
theorem run_zero_tracks_fatal_counterexample :
    DataAssociation.run ⟨3, 2, TriangulationParam.NO_RANSAC, none, none⟩ exTriangulate
      0 [] [] [] = .error "ZeroDivisionError: division by zero" := rfl

/-- Witness for C4 (amended) at a concrete one-track input. -/
theorem run_ratio_metrics_witness :
    (generate_tracks_from_pairwise_matches exMatches exKeypoints = .ok exTracks) ∧
    exTracks ≠ [] ∧
    (∃ scene metrics,
      DataAssociation.run ⟨3, 2, TriangulationParam.NO_RANSAC, none, none⟩ exTriangulate
        2 [] exMatches exKeypoints = .ok (scene, metrics) ∧
      metrics.triangulation_success_ratio
        = ((exTracks.map (fun t => (exTriangulate t).2.2)).count
             TriangulationExitCode.SUCCESS : ℚ) / (exTracks.length : ℚ) ∧
      metrics.cheirality_failure_ratio
        = ((exTracks.map (fun t => (exTriangulate t).2.2)).count
             TriangulationExitCode.CHEIRALITY_FAILURE : ℚ) / (exTracks.length : ℚ) ∧
      metrics.small_baseline_failure_ratio
        = ((exTracks.map (fun t => (exTriangulate t).2.2)).count
             TriangulationExitCode.SMALL_BASELINE : ℚ) / (exTracks.length : ℚ)) :=
  ⟨rfl, by decide,
    run_ratio_metrics ⟨3, 2, TriangulationParam.NO_RANSAC, none, none⟩ exTriangulate
      2 [] exMatches exKeypoints exTracks rfl (by decide)⟩

/-- Claim C7: when any image's keypoint coordinate array is not
2-dimensional, generate_tracks_from_pairwise_matches raises the descriptive
dimensionality error before any union-find merge or track construction, so
no tracks are produced. -/
theorem generate_tracks_dim_check
    (matches_dict : List ((Nat × Nat) × List (Nat × Nat)))
    (keypoints_list : List Keypoints)
    (h : (keypoints_list.all (fun kps => kps.ndim == 2)) = false) :
    generate_tracks_from_pairwise_matches matches_dict keypoints_list
      = .error dimErrorMsg := by
  unfold generate_tracks_from_pairwise_matches
  simp [h]

/-- Witness for C7 at a concrete malformed keypoint list. -/
theorem generate_tracks_dim_check_witness :
    (([⟨1, []⟩] : List Keypoints).all (fun kps => kps.ndim == 2) = false) ∧
    generate_tracks_from_pairwise_matches exMatches [⟨1, []⟩] = .error dimErrorMsg :=
  ⟨rfl, generate_tracks_dim_check exMatches [⟨1, []⟩] rfl⟩

/-- Claim C8 (amended): Track2D equality is order-insensitive in the forward
direction — any permutation of the measurement list compares equal — but it
is not equivalent to permutation: it checks only equal length plus
membership of each of t1's measurements in t2 (up to np.allclose), which
also identifies lists with repeated measurements whose multisets differ, see
the counterexample. -/
theorem track_pyEq_of_perm (t1 t2 : SfmTrack2d)
    (h : t1.measurements.Perm t2.measurements) : t1.pyEq t2 = true := by
  unfold SfmTrack2d.pyEq
  rw [Bool.and_eq_true]
  constructor
  · rw [beq_iff_eq]
    exact h.length_eq
  · rw [List.all_eq_true]
    intro m hm
    rw [List.any_eq_true]
    exact ⟨m, h.mem_iff.mp hm, measurement_pyEq_refl m⟩

/-- Witness for C8 (amended) at a concrete transposition. -/
theorem track_pyEq_of_perm_witness :
    ([(⟨0, ((0:ℚ), (0:ℚ))⟩ : SfmMeasurement), ⟨1, (2, 3)⟩].Perm
        [⟨1, ((2:ℚ), (3:ℚ))⟩, ⟨0, (0, 0)⟩]) ∧
    SfmTrack2d.pyEq ⟨[⟨0, (0, 0)⟩, ⟨1, (2, 3)⟩]⟩ ⟨[⟨1, (2, 3)⟩, ⟨0, (0, 0)⟩]⟩ = true :=
  ⟨by decide, track_pyEq_of_perm _ _ (by decide)⟩

/-- Counterexample for C8 as stated: two tracks with repeated measurements
compare equal under SfmTrack2d.__eq__ although their measurement lists are
not permutations of one another. -/
theorem track_pyEq_not_perm_counterexample :
    (SfmTrack2d.pyEq ⟨[⟨0, (0, 0)⟩, ⟨0, (0, 0)⟩, ⟨0, (1, 1)⟩]⟩
        ⟨[⟨0, (0, 0)⟩, ⟨0, (1, 1)⟩, ⟨0, (1, 1)⟩]⟩ = true) ∧
    ¬ (([⟨0, (0, 0)⟩, ⟨0, (0, 0)⟩, ⟨0, (1, 1)⟩] : List SfmMeasurement).Perm
        [⟨0, (0, 0)⟩, ⟨0, (1, 1)⟩, ⟨0, (1, 1)⟩]) := by
  constructor
  · unfold SfmTrack2d.pyEq
    simp only [List.all_cons, List.all_nil, List.any_cons, List.any_nil]
    simp [SfmMeasurement.pyEq, npCloseQ_refl]
  · decide


/-! ## Bundle-adjustment lemmas and claim theorems -/


lemma add_camera_prior_eq (ba : BundleAdjustmentOptimizer) (g : NonlinearFactorGraph)
    (cam : PinholeCameraCal3Bundler) (i : Nat) :
    ba.add_camera_prior g cam i = g ++ cameraPriorFactors ba (i, cam) := by
  unfold BundleAdjustmentOptimizer.add_camera_prior cameraPriorFactors
  split
  · simp
  · simp

lemma add_camera_initial_value_eq (ba : BundleAdjustmentOptimizer) (v : Values)
    (cam : PinholeCameraCal3Bundler) (i : Nat) :
    ba.add_camera_initial_value v cam i = v ++ cameraInitialEntries ba (i, cam) := by
  unfold BundleAdjustmentOptimizer.add_camera_initial_value cameraInitialEntries
      Values.insertVal
  split
  · simp
  · simp

lemma camfold_eq (ba : BundleAdjustmentOptimizer) :
    ∀ (cams : List (Nat × PinholeCameraCal3Bundler)) (g0 : NonlinearFactorGraph)
      (v0 : Values),
      cams.foldl (fun gv ic =>
          (ba.add_camera_prior gv.1 ic.2 ic.1, ba.add_camera_initial_value gv.2 ic.2 ic.1))
        (g0, v0)
      = (g0 ++ cams.flatMap (cameraPriorFactors ba),
         v0 ++ cams.flatMap (cameraInitialEntries ba)) := by
  intro cams
  induction cams with
  | nil => intro g0 v0; simp
  | cons ic rest ih =>
    intro g0 v0
    rw [List.foldl_cons, add_camera_prior_eq, add_camera_initial_value_eq, ih]
    simp

lemma trackfold_eq (ba : BundleAdjustmentOptimizer) (noise : IsotropicNoise)
    (hn : noise = ⟨IMG_MEASUREMENT_DIM, MEASUREMENT_NOISE_SIGMA⟩) :
    ∀ (jts : List (Nat × SfmTrack)) (g0 : NonlinearFactorGraph) (v0 : Values),
      jts.foldl (fun gv jt =>
          (ba.add_measurement_factor gv.1 jt.2 jt.1 noise,
           Values.insertVal gv.2 (BAKey.P jt.1) (BAValue.point jt.2.point3)))
        (g0, v0)
      = (g0 ++ jts.flatMap (trackFactors ba),
         v0 ++ jts.map (fun jt => (BAKey.P jt.1, BAValue.point jt.2.point3))) := by
  subst hn
  intro jts
  induction jts with
  | nil => intro g0 v0; simp
  | cons jt rest ih =>
    intro g0 v0
    rw [List.foldl_cons, ih]
    unfold BundleAdjustmentOptimizer.add_measurement_factor trackFactors
        Values.insertVal
    simp

lemma buildGraphAndValues_eq (ba : BundleAdjustmentOptimizer) (d : GtsfmData) :
    ba.buildGraphAndValues d
      = (d.tracks.enum.flatMap (trackFactors ba)
           ++ d.cameras.flatMap (cameraPriorFactors ba),
         d.tracks.enum.map (fun jt => (BAKey.P jt.1, BAValue.point jt.2.point3))
           ++ d.cameras.flatMap (cameraInitialEntries ba)) := by
  unfold BundleAdjustmentOptimizer.buildGraphAndValues
  dsimp only
  rw [trackfold_eq ba _ rfl, camfold_eq]
  simp



lemma countCalPriors_append (g1 g2 : NonlinearFactorGraph) :
    countCalPriors (g1 ++ g2) = countCalPriors g1 + countCalPriors g2 := by
  unfold countCalPriors
  rw [List.filter_append, List.length_append]

lemma countCalValues_append (v1 v2 : Values) :
    countCalValues (v1 ++ v2) = countCalValues v1 + countCalValues v2 := by
  unfold countCalValues
  rw [List.filter_append, List.length_append]

lemma countCalPriors_trackFactors (ba : BundleAdjustmentOptimizer) (jt : Nat × SfmTrack) :
    countCalPriors (trackFactors ba jt) = 0 := by
  unfold countCalPriors trackFactors
  induction jt.2.measurements with
  | nil => rfl
  | cons m ms ihm => simpa using ihm

lemma countCalPriors_trackPart (ba : BundleAdjustmentOptimizer) :
    ∀ jts : List (Nat × SfmTrack),
      countCalPriors (jts.flatMap (trackFactors ba)) = 0 := by
  intro jts
  induction jts with
  | nil => rfl
  | cons jt rest ih =>
    rw [List.flatMap_cons, countCalPriors_append, ih, countCalPriors_trackFactors]

lemma countCalValues_trackPart :
    ∀ jts : List (Nat × SfmTrack),
      countCalValues (jts.map (fun jt => (BAKey.P jt.1, BAValue.point jt.2.point3))) = 0 := by
  intro jts
  induction jts with
  | nil => rfl
  | cons jt rest ih => simpa using ih

lemma countCalPriors_cameraPriorFactors (ba : BundleAdjustmentOptimizer)
    (ic : Nat × PinholeCameraCal3Bundler) :
    countCalPriors (cameraPriorFactors ba ic)
      = (if ic.1 == 0 || !ba.shared_calib then 1 else 0) := by
  unfold countCalPriors cameraPriorFactors
  split
  · rfl
  · rfl

lemma countCalValues_cameraInitialEntries (ba : BundleAdjustmentOptimizer)
    (ic : Nat × PinholeCameraCal3Bundler) :
    countCalValues (cameraInitialEntries ba ic)
      = (if ic.1 == 0 || !ba.shared_calib then 1 else 0) := by
  unfold countCalValues cameraInitialEntries
  split
  · rfl
  · rfl

lemma countCalPriors_camPart (ba : BundleAdjustmentOptimizer) :
    ∀ cams : List (Nat × PinholeCameraCal3Bundler),
      countCalPriors (cams.flatMap (cameraPriorFactors ba))
        = cams.countP (fun ic => ic.1 == 0 || !ba.shared_calib) := by
  intro cams
  induction cams with
  | nil => rfl
  | cons ic rest ih =>
    rw [List.flatMap_cons, countCalPriors_append, ih, countCalPriors_cameraPriorFactors,
      List.countP_cons]
    by_cases h : (ic.1 == 0 || !ba.shared_calib) = true
    · simp [h]
      omega
    · simp [Bool.not_eq_true] at h
      simp [h]

lemma countCalValues_camPart (ba : BundleAdjustmentOptimizer) :
    ∀ cams : List (Nat × PinholeCameraCal3Bundler),
      countCalValues (cams.flatMap (cameraInitialEntries ba))
        = cams.countP (fun ic => ic.1 == 0 || !ba.shared_calib) := by
  intro cams
  induction cams with
  | nil => rfl
  | cons ic rest ih =>
    rw [List.flatMap_cons, countCalValues_append, ih, countCalValues_cameraInitialEntries,
      List.countP_cons]
    by_cases h : (ic.1 == 0 || !ba.shared_calib) = true
    · simp [h]
      omega
    · simp [Bool.not_eq_true] at h
      simp [h]

lemma countCalPriors_build (ba : BundleAdjustmentOptimizer) (d : GtsfmData) :
    countCalPriors (ba.buildGraphAndValues d).1
      = d.cameras.countP (fun ic => ic.1 == 0 || !ba.shared_calib) := by
  rw [buildGraphAndValues_eq]
  dsimp only
  rw [countCalPriors_append, countCalPriors_trackPart, countCalPriors_camPart]
  omega

lemma countCalValues_build (ba : BundleAdjustmentOptimizer) (d : GtsfmData) :
    countCalValues (ba.buildGraphAndValues d).2
      = d.cameras.countP (fun ic => ic.1 == 0 || !ba.shared_calib) := by
  rw [buildGraphAndValues_eq]
  dsimp only
  rw [countCalValues_append, countCalValues_trackPart, countCalValues_camPart]
  omega

lemma countP_zero_key (cams : List (Nat × PinholeCameraCal3Bundler))
    (hnd : (cams.map Prod.fst).Nodup) :
    cams.countP (fun ic => ic.1 == 0)
      = (if 0 ∈ cams.map Prod.fst then 1 else 0) := by
  have hmap : cams.countP (fun ic => ic.1 == 0)
      = (cams.map Prod.fst).countP (fun i => i == 0) := by
    rw [List.countP_map]
    rfl
  rw [hmap]
  have hc : (cams.map Prod.fst).countP (fun i => i == 0)
      = (cams.map Prod.fst).count 0 := by
    unfold List.count
    rfl
  rw [hc]
  by_cases hm : 0 ∈ cams.map Prod.fst
  · rw [if_pos hm]
    exact List.count_eq_one_of_mem hnd hm
  · rw [if_neg hm]
    exact List.count_eq_zero_of_not_mem hm



lemma values_lookup_none (k : BAKey) :
    ∀ v : Values, k ∉ v.map Prod.fst → List.lookup k v = none := by
  intro v
  induction v with
  | nil => intro h; rfl
  | cons kv rest ih =>
    intro h
    simp only [List.map_cons, List.mem_cons] at h
    push_neg at h
    obtain ⟨k1, v1⟩ := kv
    rw [List.lookup_cons]
    simp only at h
    rw [beq_false_of_ne h.1]
    exact ih h.2

lemma values_lookup_isSome (k : BAKey) :
    ∀ v : Values, k ∈ v.map Prod.fst → (List.lookup k v).isSome = true := by
  intro v
  induction v with
  | nil => intro h; cases h
  | cons kv rest ih =>
    intro h
    obtain ⟨k1, v1⟩ := kv
    rw [List.lookup_cons]
    cases hbeq : (k == k1) with
    | true => rfl
    | false =>
      apply ih
      simp only [List.map_cons, List.mem_cons] at h
      cases h with
      | inl h1 =>
        subst h1
        rw [beq_self_eq_true] at hbeq
        cases hbeq
      | inr h2 => exact h2

lemma values_lookup_mem (k : BAKey) (x : BAValue) :
    ∀ v : Values, List.lookup k v = some x → (k, x) ∈ v := by
  intro v
  induction v with
  | nil => intro h; cases h
  | cons kv rest ih =>
    intro h
    obtain ⟨k1, v1⟩ := kv
    rw [List.lookup_cons] at h
    cases hbeq : (k == k1) with
    | true =>
      rw [hbeq] at h
      cases h
      have : k = k1 := eq_of_beq hbeq
      subst this
      exact List.mem_cons_self _ _
    | false =>
      rw [hbeq] at h
      exact List.mem_cons_of_mem _ (ih h)



/-- Shape of every entry of the built initial values: X keys hold poses,
K keys hold calibrations, P keys hold points. -/
lemma built_values_shape (ba : BundleAdjustmentOptimizer) (d : GtsfmData) :
    ∀ kv ∈ (ba.buildGraphAndValues d).2,
      (∃ i p, kv = (BAKey.X i, BAValue.pose p)) ∨
      (∃ i c, kv = (BAKey.K i, BAValue.cal c)) ∨
      (∃ j q, kv = (BAKey.P j, BAValue.point q)) := by
  rw [buildGraphAndValues_eq]
  dsimp only
  intro kv hkv
  rw [List.mem_append] at hkv
  cases hkv with
  | inl h =>
    rw [List.mem_map] at h
    obtain ⟨jt, _, heq⟩ := h
    exact Or.inr (Or.inr ⟨jt.1, jt.2.point3, heq.symm⟩)
  | inr h =>
    rw [List.mem_flatMap] at h
    obtain ⟨ic, _, hkv2⟩ := h
    unfold cameraInitialEntries at hkv2
    rw [List.mem_append] at hkv2
    cases hkv2 with
    | inl h1 =>
      rw [List.mem_singleton] at h1
      exact Or.inl ⟨ic.1, ic.2.pose, h1⟩
    | inr h2 =>
      split at h2
      · rw [List.mem_singleton] at h2
        exact Or.inr (Or.inl ⟨ic.1, ic.2.calibration, h2⟩)
      · cases h2

/-- The X key of every valid camera index is present in the built values. -/
lemma built_values_has_X (ba : BundleAdjustmentOptimizer) (d : GtsfmData) (i : Nat)
    (hi : i ∈ d.cameras.map Prod.fst) :
    BAKey.X i ∈ (ba.buildGraphAndValues d).2.map Prod.fst := by
  rw [buildGraphAndValues_eq]
  dsimp only
  rw [List.map_append, List.mem_append]
  right
  rw [List.mem_map] at hi ⊢
  obtain ⟨ic, hic, hfst⟩ := hi
  refine ⟨(BAKey.X ic.1, BAValue.pose ic.2.pose), ?_, by rw [← hfst]⟩
  rw [List.mem_flatMap]
  refine ⟨ic, hic, ?_⟩
  unfold cameraInitialEntries
  rw [List.mem_append]
  left
  exact List.mem_singleton.mpr rfl

/-- The calibration key referenced for camera index i — K 0 when shared,
K i otherwise — is present in the built values provided that, when shared,
index 0 is itself a valid camera index. -/
lemma built_values_has_K (ba : BundleAdjustmentOptimizer) (d : GtsfmData) (i : Nat)
    (hi : i ∈ d.cameras.map Prod.fst)
    (hsh : ba.shared_calib = true → 0 ∈ d.cameras.map Prod.fst) :
    BAKey.K (if ba.shared_calib then 0 else i)
      ∈ (ba.buildGraphAndValues d).2.map Prod.fst := by
  rw [buildGraphAndValues_eq]
  dsimp only
  rw [List.map_append, List.mem_append]
  right
  cases hb : ba.shared_calib with
  | true =>
    have h0 := hsh hb
    rw [List.mem_map] at h0
    obtain ⟨ic, hic, hfst⟩ := h0
    rw [List.mem_map]
    refine ⟨(BAKey.K ic.1, BAValue.cal ic.2.calibration), ?_, by simp [hfst]⟩
    rw [List.mem_flatMap]
    refine ⟨ic, hic, ?_⟩
    unfold cameraInitialEntries
    rw [List.mem_append]
    right
    simp [hfst]
  | false =>
    rw [List.mem_map] at hi
    obtain ⟨ic, hic, hfst⟩ := hi
    rw [List.mem_map]
    refine ⟨(BAKey.K ic.1, BAValue.cal ic.2.calibration), ?_, by simp [hfst]⟩
    rw [List.mem_flatMap]
    refine ⟨ic, hic, ?_⟩
    unfold cameraInitialEntries
    rw [List.mem_append]
    right
    simp [hb]

/-- The P key of every track position is present in the built values. -/
lemma built_values_has_P (ba : BundleAdjustmentOptimizer) (d : GtsfmData) (j : Nat)
    (hj : j ∈ d.tracks.enum.map Prod.fst) :
    BAKey.P j ∈ (ba.buildGraphAndValues d).2.map Prod.fst := by
  rw [buildGraphAndValues_eq]
  dsimp only
  rw [List.map_append, List.mem_append]
  left
  rw [List.mem_map] at hj
  obtain ⟨jt, hjt, hfst⟩ := hj
  rw [List.map_map, List.mem_map]
  exact ⟨jt, hjt, by rw [← hfst]; rfl⟩

/-- When calibration is shared and no valid camera index is 0, the K 0 key
is absent from the built values. -/
lemma built_values_no_K0 (ba : BundleAdjustmentOptimizer) (d : GtsfmData)
    (h0 : 0 ∉ d.cameras.map Prod.fst) :
    BAKey.K 0 ∉ (ba.buildGraphAndValues d).2.map Prod.fst := by
  rw [buildGraphAndValues_eq]
  dsimp only
  rw [List.map_append, List.mem_append]
  rintro (h | h)
  · rw [List.map_map, List.mem_map] at h
    obtain ⟨jt, _, heq⟩ := h
    cases heq
  · rw [List.mem_map] at h
    obtain ⟨kv, hkv, hfst⟩ := h
    rw [List.mem_flatMap] at hkv
    obtain ⟨ic, hic, hkv2⟩ := hkv
    unfold cameraInitialEntries at hkv2
    rw [List.mem_append] at hkv2
    cases hkv2 with
    | inl h1 =>
      rw [List.mem_singleton] at h1
      subst h1
      cases hfst
    | inr h2 =>
      split at h2
      · rename_i hcond
        rw [List.mem_singleton] at h2
        subst h2
        have hic1 : ic.1 = 0 := by
          simpa using hfst
        apply h0
        rw [List.mem_map]
        exact ⟨ic, hic, hic1⟩
      · cases h2

/-- A kind-aligned successful lookup at an X key yields a pose via atPose3. -/
lemma atPose3_ok_of_aligned (w : Values) (ba : BundleAdjustmentOptimizer)
    (d : GtsfmData) (k : BAKey)
    (hw : (List.lookup k w).map BAValue.kindOf
        = (List.lookup k (ba.buildGraphAndValues d).2).map BAValue.kindOf)
    (hmem : k ∈ (ba.buildGraphAndValues d).2.map Prod.fst)
    (hshape : ∀ x, (k, x) ∈ (ba.buildGraphAndValues d).2 → BAValue.kindOf x = BAKind.pose) :
    ∃ p, Values.atPose3 w k = .ok p := by
  have hsome := values_lookup_isSome k _ hmem
  cases hv : List.lookup k (ba.buildGraphAndValues d).2 with
  | none => rw [hv] at hsome; cases hsome
  | some x =>
    have hkind : BAValue.kindOf x = BAKind.pose :=
      hshape x (values_lookup_mem k x _ hv)
    rw [hv] at hw
    cases hw2 : List.lookup k w with
    | none => rw [hw2] at hw; cases hw
    | some y =>
      rw [hw2] at hw
      have hykind : BAValue.kindOf y = BAKind.pose := by
        have hyx : BAValue.kindOf y = BAValue.kindOf x := by
          simpa using hw
        rw [hyx, hkind]
      cases y with
      | pose p =>
        refine ⟨p, ?_⟩
        unfold Values.atPose3
        rw [hw2]
      | cal c => cases hykind
      | point q => cases hykind



lemma built_values_X_kind (ba : BundleAdjustmentOptimizer) (d : GtsfmData) (i : Nat) :
    ∀ x, (BAKey.X i, x) ∈ (ba.buildGraphAndValues d).2 →
      BAValue.kindOf x = BAKind.pose := by
  intro x hx
  rcases built_values_shape ba d _ hx with ⟨i', p, heq⟩ | ⟨i', c, heq⟩ | ⟨j, q, heq⟩
  · cases heq; rfl
  · cases heq
  · cases heq

lemma built_values_K_kind (ba : BundleAdjustmentOptimizer) (d : GtsfmData) (i : Nat) :
    ∀ x, (BAKey.K i, x) ∈ (ba.buildGraphAndValues d).2 →
      BAValue.kindOf x = BAKind.cal := by
  intro x hx
  rcases built_values_shape ba d _ hx with ⟨i', p, heq⟩ | ⟨i', c, heq⟩ | ⟨j, q, heq⟩
  · cases heq
  · cases heq; rfl
  · cases heq

lemma built_values_P_kind (ba : BundleAdjustmentOptimizer) (d : GtsfmData) (j : Nat) :
    ∀ x, (BAKey.P j, x) ∈ (ba.buildGraphAndValues d).2 →
      BAValue.kindOf x = BAKind.point := by
  intro x hx
  rcases built_values_shape ba d _ hx with ⟨i', p, heq⟩ | ⟨i', c, heq⟩ | ⟨j', q, heq⟩
  · cases heq
  · cases heq
  · cases heq; rfl

lemma atCal3Bundler_ok_of_aligned (w : Values) (ba : BundleAdjustmentOptimizer)
    (d : GtsfmData) (k : BAKey)
    (hw : (List.lookup k w).map BAValue.kindOf
        = (List.lookup k (ba.buildGraphAndValues d).2).map BAValue.kindOf)
    (hmem : k ∈ (ba.buildGraphAndValues d).2.map Prod.fst)
    (hshape : ∀ x, (k, x) ∈ (ba.buildGraphAndValues d).2 →
      BAValue.kindOf x = BAKind.cal) :
    ∃ c, Values.atCal3Bundler w k = .ok c := by
  have hsome := values_lookup_isSome k _ hmem
  cases hv : List.lookup k (ba.buildGraphAndValues d).2 with
  | none => rw [hv] at hsome; cases hsome
  | some x =>
    have hkind : BAValue.kindOf x = BAKind.cal :=
      hshape x (values_lookup_mem k x _ hv)
    rw [hv] at hw
    cases hw2 : List.lookup k w with
    | none => rw [hw2] at hw; cases hw
    | some y =>
      rw [hw2] at hw
      have hykind : BAValue.kindOf y = BAKind.cal := by
        have hyx : BAValue.kindOf y = BAValue.kindOf x := by
          simpa using hw
        rw [hyx, hkind]
      cases y with
      | pose p => cases hykind
      | cal c =>
        refine ⟨c, ?_⟩
        unfold Values.atCal3Bundler
        rw [hw2]
      | point q => cases hykind

lemma atPoint3_ok_of_aligned (w : Values) (ba : BundleAdjustmentOptimizer)
    (d : GtsfmData) (k : BAKey)
    (hw : (List.lookup k w).map BAValue.kindOf
        = (List.lookup k (ba.buildGraphAndValues d).2).map BAValue.kindOf)
    (hmem : k ∈ (ba.buildGraphAndValues d).2.map Prod.fst)
    (hshape : ∀ x, (k, x) ∈ (ba.buildGraphAndValues d).2 →
      BAValue.kindOf x = BAKind.point) :
    ∃ q, Values.atPoint3 w k = .ok q := by
  have hsome := values_lookup_isSome k _ hmem
  cases hv : List.lookup k (ba.buildGraphAndValues d).2 with
  | none => rw [hv] at hsome; cases hsome
  | some x =>
    have hkind : BAValue.kindOf x = BAKind.point :=
      hshape x (values_lookup_mem k x _ hv)
    rw [hv] at hw
    cases hw2 : List.lookup k w with
    | none => rw [hw2] at hw; cases hw
    | some y =>
      rw [hw2] at hw
      have hykind : BAValue.kindOf y = BAKind.point := by
        have hyx : BAValue.kindOf y = BAValue.kindOf x := by
          simpa using hw
        rw [hyx, hkind]
      cases y with
      | pose p => cases hykind
      | cal c => cases hykind
      | point q =>
        refine ⟨q, ?_⟩
        unfold Values.atPoint3
        rw [hw2]

lemma camerasFromValues_ok (w : Values) (shared : Bool) :
    ∀ cams : List (Nat × PinholeCameraCal3Bundler),
      (∀ ic ∈ cams,
        (∃ p, Values.atPose3 w (BAKey.X ic.1) = .ok p) ∧
        (∃ c, Values.atCal3Bundler w (BAKey.K (if shared then 0 else ic.1)) = .ok c)) →
      ∃ out, camerasFromValues w shared cams = .ok out ∧
        out.map Prod.fst = cams.map Prod.fst := by
  intro cams
  induction cams with
  | nil => intro _; exact ⟨[], rfl, rfl⟩
  | cons ic rest ih =>
    intro hall
    obtain ⟨⟨p, hp⟩, ⟨c, hc⟩⟩ := hall ic (List.mem_cons_self _ _)
    obtain ⟨out, hout, hfst⟩ :=
      ih (fun ic' hic' => hall ic' (List.mem_cons_of_mem _ hic'))
    refine ⟨(ic.1, PinholeCameraCal3Bundler.mk p c) :: out, ?_, ?_⟩
    · unfold camerasFromValues
      rw [hp, hc, hout]
    · rw [List.map_cons, List.map_cons, hfst]

lemma tracksFromValues_ok (w : Values) :
    ∀ jts : List (Nat × SfmTrack),
      (∀ jt ∈ jts, ∃ q, Values.atPoint3 w (BAKey.P jt.1) = .ok q) →
      ∃ out, tracksFromValues w jts = .ok out ∧
        out.map SfmTrack.measurements = jts.map (fun jt => jt.2.measurements) := by
  intro jts
  induction jts with
  | nil => intro _; exact ⟨[], rfl, rfl⟩
  | cons jt rest ih =>
    intro hall
    obtain ⟨q, hq⟩ := hall jt (List.mem_cons_self _ _)
    obtain ⟨out, hout, hmap⟩ :=
      ih (fun jt' hjt' => hall jt' (List.mem_cons_of_mem _ hjt'))
    refine ⟨SfmTrack.mk q jt.2.measurements :: out, ?_, ?_⟩
    · unfold tracksFromValues
      rw [hq, hout]
    · rw [List.map_cons, List.map_cons, hmap]

lemma snd_mem_of_mem_enumFrom {α : Type} :
    ∀ (l : List α) (n : Nat) (jt : Nat × α), jt ∈ l.enumFrom n → jt.2 ∈ l := by
  intro l
  induction l with
  | nil => intro n jt h; cases h
  | cons a rest ih =>
    intro n jt h
    rw [List.enumFrom_cons, List.mem_cons] at h
    cases h with
    | inl h1 => subst h1; exact List.mem_cons_self _ _
    | inr h2 => exact List.mem_cons_of_mem _ (ih (n + 1) jt h2)

lemma exists_enum_of_mem {α : Type} :
    ∀ (l : List α) (t : α), t ∈ l → ∀ n, ∃ j, (j, t) ∈ l.enumFrom n := by
  intro l
  induction l with
  | nil => intro t h; cases h
  | cons a rest ih =>
    intro t h n
    rw [List.mem_cons] at h
    cases h with
    | inl h1 =>
      subst h1
      exact ⟨n, by rw [List.enumFrom_cons]; exact List.mem_cons_self _ _⟩
    | inr h2 =>
      obtain ⟨j, hj⟩ := ih t h2 (n + 1)
      exact ⟨j, by rw [List.enumFrom_cons]; exact List.mem_cons_of_mem _ hj⟩



lemma sfm_factor_calkey_shared (ba : BundleAdjustmentOptimizer)
    (hsh : ba.shared_calib = true) (d : GtsfmData) :
    ∀ uv n x p k, BAFactor.generalSFMFactor2 uv n x p k ∈ (ba.buildGraphAndValues d).1 →
      k = BAKey.K 0 := by
  rw [buildGraphAndValues_eq]
  dsimp only
  intro uv n x p k hmem
  rw [List.mem_append] at hmem
  cases hmem with
  | inl h =>
    rw [List.mem_flatMap] at h
    obtain ⟨jt, _, hf⟩ := h
    unfold trackFactors at hf
    rw [List.mem_map] at hf
    obtain ⟨m, _, heq⟩ := hf
    rw [hsh] at heq
    cases heq
    rfl
  | inr h =>
    rw [List.mem_flatMap] at h
    obtain ⟨ic, _, hf⟩ := h
    unfold cameraPriorFactors at hf
    rw [List.mem_append] at hf
    cases hf with
    | inl h1 => simp at h1
    | inr h2 =>
      split at h2
      · simp at h2
      · simp at h2

/-- Claim C5 (amended): when shared_calib is true, at most one calibration
variable and one calibration prior are created — exactly one when camera
index 0 is among the valid camera indices and zero otherwise — and every
measurement factor references K(0); when shared_calib is false, one
calibration variable and one calibration prior are added per valid camera
index. (The claim's "exactly one for every scene" fails when index 0 is not
a valid camera, see the counterexample.) -/
theorem calibration_variable_counts (ba : BundleAdjustmentOptimizer) (d : GtsfmData)
    (hnd : (d.cameras.map Prod.fst).Nodup) :
    (ba.shared_calib = true →
       countCalPriors (ba.buildGraphAndValues d).1
         = (if 0 ∈ d.cameras.map Prod.fst then 1 else 0) ∧
       countCalValues (ba.buildGraphAndValues d).2
         = (if 0 ∈ d.cameras.map Prod.fst then 1 else 0) ∧
       (∀ uv n x p k,
          BAFactor.generalSFMFactor2 uv n x p k ∈ (ba.buildGraphAndValues d).1 →
            k = BAKey.K 0)) ∧
    (ba.shared_calib = false →
       countCalPriors (ba.buildGraphAndValues d).1 = d.cameras.length ∧
       countCalValues (ba.buildGraphAndValues d).2 = d.cameras.length) := by
  constructor
  · intro hsh
    refine ⟨?_, ?_, sfm_factor_calkey_shared ba hsh d⟩
    · rw [countCalPriors_build]
      simp only [hsh, Bool.not_true, Bool.or_false]
      exact countP_zero_key d.cameras hnd
    · rw [countCalValues_build]
      simp only [hsh, Bool.not_true, Bool.or_false]
      exact countP_zero_key d.cameras hnd
  · intro hsh
    constructor
    · rw [countCalPriors_build]
      simp [hsh]
    · rw [countCalValues_build]
      simp [hsh]

/-- Counterexample for C5 as stated: with shared calibration and a scene
whose valid camera indices are {1}, zero calibration priors and zero
calibration variables are created, not exactly one. -/
theorem shared_calib_no_prior_counterexample :
    baShared.shared_calib = true ∧
    countCalPriors (baShared.buildGraphAndValues exSceneNoCam0).1 = 0 ∧
    countCalValues (baShared.buildGraphAndValues exSceneNoCam0).2 = 0 :=
  ⟨rfl, rfl, rfl⟩

/-- Witness for C5 (amended) at a concrete two-camera scene containing
camera index 0. -/
theorem calibration_variable_counts_witness :
    ((exSceneTwoCams.cameras.map Prod.fst).Nodup) ∧
    ((baShared.shared_calib = true →
       countCalPriors (baShared.buildGraphAndValues exSceneTwoCams).1
         = (if 0 ∈ exSceneTwoCams.cameras.map Prod.fst then 1 else 0) ∧
       countCalValues (baShared.buildGraphAndValues exSceneTwoCams).2
         = (if 0 ∈ exSceneTwoCams.cameras.map Prod.fst then 1 else 0) ∧
       (∀ uv n x p k,
          BAFactor.generalSFMFactor2 uv n x p k
              ∈ (baShared.buildGraphAndValues exSceneTwoCams).1 →
            k = BAKey.K 0)) ∧
     (baShared.shared_calib = false →
       countCalPriors (baShared.buildGraphAndValues exSceneTwoCams).1
         = exSceneTwoCams.cameras.length ∧
       countCalValues (baShared.buildGraphAndValues exSceneTwoCams).2
         = exSceneTwoCams.cameras.length)) :=
  ⟨by decide, calibration_variable_counts baShared exSceneTwoCams (by decide)⟩

/-- Claim C3: a fault inside the nonlinear solve does not propagate out of
BundleAdjustmentOptimizer.run: the optimized result is replaced by an empty
scene with zero landmarks and zero cameras, preserving only the image
count. -/
theorem solver_fault_returns_empty (ba : BundleAdjustmentOptimizer)
    (optimize : Optimizer) (errFn : SfmTrack → ℚ) (d : GtsfmData)
    (h : optimize (ba.buildGraphAndValues d).1 (ba.buildGraphAndValues d).2
      = .error ()) :
    ba.run optimize errFn d = .ok (GtsfmData.empty d.number_images) ∧
    (GtsfmData.empty d.number_images).tracks = [] ∧
    (GtsfmData.empty d.number_images).cameras = [] ∧
    (GtsfmData.empty d.number_images).number_images = d.number_images := by
  refine ⟨?_, rfl, rfl, rfl⟩
  unfold BundleAdjustmentOptimizer.run
  dsimp only
  rw [h]

/-- Witness for C3 with a concretely faulting solver. -/
theorem solver_fault_returns_empty_witness :
    (optFail (baShared.buildGraphAndValues exSceneNoCam0).1
        (baShared.buildGraphAndValues exSceneNoCam0).2 = .error ()) ∧
    (baShared.run optFail zeroErrFn exSceneNoCam0
        = .ok (GtsfmData.empty exSceneNoCam0.number_images) ∧
     (GtsfmData.empty exSceneNoCam0.number_images).tracks = [] ∧
     (GtsfmData.empty exSceneNoCam0.number_images).cameras = [] ∧
     (GtsfmData.empty exSceneNoCam0.number_images).number_images
       = exSceneNoCam0.number_images) :=
  ⟨rfl, solver_fault_returns_empty baShared optFail zeroErrFn exSceneNoCam0 rfl⟩



/-- The successful path of BundleAdjustmentOptimizer.run, for any solver
outcome that succeeds and preserves the variables of the initial values
(gtsam's optimizer returns values over exactly the initial variables). -/
lemma ba_run_success (ba : BundleAdjustmentOptimizer) (optimize : Optimizer)
    (errFn : SfmTrack → ℚ) (d : GtsfmData) (w : Values)
    (hopt : optimize (ba.buildGraphAndValues d).1 (ba.buildGraphAndValues d).2 = .ok w)
    (hw : ∀ k, (List.lookup k w).map BAValue.kindOf
        = (List.lookup k (ba.buildGraphAndValues d).2).map BAValue.kindOf)
    (hcal : ba.shared_calib = true → 0 ∈ d.cameras.map Prod.fst ∨ d.cameras = []) :
    ∃ out, ba.run optimize errFn d = .ok out ∧
      out.number_images = d.number_images ∧
      out.cameras.map Prod.fst = d.cameras.map Prod.fst ∧
      List.Sublist (out.tracks.map SfmTrack.measurements)
        (d.tracks.map SfmTrack.measurements) ∧
      (∀ t ∈ out.tracks, ∃ t0 ∈ d.tracks, t.measurements = t0.measurements) ∧
      (d.tracks = [] → out.tracks = []) := by
  have hcams : ∀ ic ∈ d.cameras,
      (∃ p, Values.atPose3 w (BAKey.X ic.1) = .ok p) ∧
      (∃ c, Values.atCal3Bundler w
          (BAKey.K (if ba.shared_calib then 0 else ic.1)) = .ok c) := by
    intro ic hic
    have hifst : ic.1 ∈ d.cameras.map Prod.fst := List.mem_map.mpr ⟨ic, hic, rfl⟩
    constructor
    · exact atPose3_ok_of_aligned w ba d _ (hw _)
        (built_values_has_X ba d ic.1 hifst) (built_values_X_kind ba d ic.1)
    · have hKmem : BAKey.K (if ba.shared_calib then 0 else ic.1)
          ∈ (ba.buildGraphAndValues d).2.map Prod.fst := by
        apply built_values_has_K ba d ic.1 hifst
        intro hb
        rcases hcal hb with h0 | hnil
        · exact h0
        · rw [hnil] at hic
          cases hic
      exact atCal3Bundler_ok_of_aligned w ba d _ (hw _) hKmem
        (built_values_K_kind ba d _)
  obtain ⟨outCams, hOutCams, hCamFst⟩ :=
    camerasFromValues_ok w ba.shared_calib d.cameras hcams
  have htracks : ∀ jt ∈ d.tracks.enum,
      ∃ q, Values.atPoint3 w (BAKey.P jt.1) = .ok q := by
    intro jt hjt
    have hjmem : jt.1 ∈ d.tracks.enum.map Prod.fst := List.mem_map.mpr ⟨jt, hjt, rfl⟩
    exact atPoint3_ok_of_aligned w ba d _ (hw _)
      (built_values_has_P ba d jt.1 hjmem) (built_values_P_kind ba d _)
  obtain ⟨outTracks, hOutTracks, hMap⟩ :=
    tracksFromValues_ok w d.tracks.enum htracks
  have hMapTracks : outTracks.map SfmTrack.measurements
      = d.tracks.map SfmTrack.measurements := by
    rw [hMap]
    have h1 : (d.tracks.enum.map Prod.snd).map SfmTrack.measurements
        = d.tracks.enum.map (fun jt => jt.2.measurements) := by
      rw [List.map_map]
      rfl
    rw [← h1, List.enum_map_snd]
  refine ⟨(GtsfmData.mk d.number_images outCams outTracks).filter_landmarks errFn
      ba.output_reproj_error_thresh, ?_, rfl, ?_, ?_, ?_, ?_⟩
  · unfold BundleAdjustmentOptimizer.run
    dsimp only
    rw [hopt]
    dsimp only
    unfold values_to_gtsfm_data
    rw [hOutCams]
    dsimp only
    rw [hOutTracks]
  · exact hCamFst
  · unfold GtsfmData.filter_landmarks
    dsimp only
    have hsub : List.Sublist
        (outTracks.filter (fun t => decide (errFn t ≤ ba.output_reproj_error_thresh)))
        outTracks := List.filter_sublist outTracks
    have hsubmap := hsub.map SfmTrack.measurements
    rw [hMapTracks] at hsubmap
    exact hsubmap
  · intro t ht
    have ht2 : t ∈ outTracks := by
      unfold GtsfmData.filter_landmarks at ht
      exact List.mem_of_mem_filter ht
    have hmm : t.measurements ∈ outTracks.map SfmTrack.measurements :=
      List.mem_map_of_mem _ ht2
    rw [hMapTracks, List.mem_map] at hmm
    obtain ⟨t0, ht0, hm⟩ := hmm
    exact ⟨t0, ht0, hm.symm⟩
  · intro hnil
    have hz : outTracks = [] := by
      have h2 : outTracks.map SfmTrack.measurements = [] := by
        rw [hMapTracks, hnil]
        rfl
      exact List.map_eq_nil_iff.mp h2
    unfold GtsfmData.filter_landmarks
    dsimp only
    rw [hz]
    rfl

/-- Claim C9: on the successful solver path, BundleAdjustmentOptimizer.run
returns a scene with exactly the valid camera indices of the input, and the
list of output measurement lists is a sublist of the input's list of
measurement lists: filtering only drops whole tracks, so each surviving
output track carries, in order and in position, exactly the measurement
list (camera indices and 2d coordinates) of its corresponding input track —
no duplication, reordering or crossing; only poses, calibrations and 3d
points are replaced by solved values. -/
theorem run_success_frame (ba : BundleAdjustmentOptimizer) (optimize : Optimizer)
    (errFn : SfmTrack → ℚ) (d : GtsfmData) (w : Values)
    (hopt : optimize (ba.buildGraphAndValues d).1 (ba.buildGraphAndValues d).2 = .ok w)
    (hw : ∀ k, (List.lookup k w).map BAValue.kindOf
        = (List.lookup k (ba.buildGraphAndValues d).2).map BAValue.kindOf)
    (hcal : ba.shared_calib = true → 0 ∈ d.cameras.map Prod.fst ∨ d.cameras = []) :
    ∃ out, ba.run optimize errFn d = .ok out ∧
      out.number_images = d.number_images ∧
      out.cameras.map Prod.fst = d.cameras.map Prod.fst ∧
      List.Sublist (out.tracks.map SfmTrack.measurements)
        (d.tracks.map SfmTrack.measurements) ∧
      (∀ t ∈ out.tracks, ∃ t0 ∈ d.tracks, t.measurements = t0.measurements) := by
  obtain ⟨out, hrun, hn, hc, hsub, hm, _⟩ :=
    ba_run_success ba optimize errFn d w hopt hw hcal
  exact ⟨out, hrun, hn, hc, hsub, hm⟩

/-- Witness for C9 at a concrete two-camera scene with the identity solver. -/
theorem run_success_frame_witness :
    (optIdentity (baShared.buildGraphAndValues exSceneTwoCams).1
        (baShared.buildGraphAndValues exSceneTwoCams).2
      = .ok (baShared.buildGraphAndValues exSceneTwoCams).2) ∧
    (baShared.shared_calib = true → 0 ∈ exSceneTwoCams.cameras.map Prod.fst ∨
        exSceneTwoCams.cameras = []) ∧
    (∃ out, baShared.run optIdentity zeroErrFn exSceneTwoCams = .ok out ∧
      out.number_images = exSceneTwoCams.number_images ∧
      out.cameras.map Prod.fst = exSceneTwoCams.cameras.map Prod.fst ∧
      List.Sublist (out.tracks.map SfmTrack.measurements)
        (exSceneTwoCams.tracks.map SfmTrack.measurements) ∧
      (∀ t ∈ out.tracks, ∃ t0 ∈ exSceneTwoCams.tracks,
        t.measurements = t0.measurements)) :=
  ⟨rfl, fun _ => Or.inl (by decide),
    run_success_frame baShared optIdentity zeroErrFn exSceneTwoCams
      (baShared.buildGraphAndValues exSceneTwoCams).2 rfl (fun _ => rfl)
      (fun _ => Or.inl (by decide))⟩

/-- Claim C6 (amended): on a scene with zero landmarks,
BundleAdjustmentOptimizer.run returns without raising a SceneModel with zero
landmarks, retaining the input's cameras (so it is the empty SceneModel only
when the input also has no cameras), provided calibration is per-camera or
camera index 0 is valid or there are no cameras; in the remaining case —
shared calibration with cameras but no index 0 — run raises on the
result-extraction path, see the counterexample. -/
theorem run_zero_landmarks (ba : BundleAdjustmentOptimizer) (optimize : Optimizer)
    (errFn : SfmTrack → ℚ) (d : GtsfmData) (w : Values)
    (htrk : d.tracks = [])
    (hopt : optimize (ba.buildGraphAndValues d).1 (ba.buildGraphAndValues d).2 = .ok w)
    (hw : ∀ k, (List.lookup k w).map BAValue.kindOf
        = (List.lookup k (ba.buildGraphAndValues d).2).map BAValue.kindOf)
    (hcal : ba.shared_calib = true → 0 ∈ d.cameras.map Prod.fst ∨ d.cameras = []) :
    ∃ out, ba.run optimize errFn d = .ok out ∧
      out.tracks = [] ∧
      out.cameras.map Prod.fst = d.cameras.map Prod.fst ∧
      out.number_images = d.number_images := by
  obtain ⟨out, hrun, hn, hc, _, _, hz⟩ :=
    ba_run_success ba optimize errFn d w hopt hw hcal
  exact ⟨out, hrun, hz htrk, hc, hn⟩

/-- Counterexample for C6 as stated: on a zero-landmark scene with shared
calibration whose only valid camera index is 1, run raises
ValuesKeyDoesNotExist (the K(0) read in values_to_gtsfm_data sits outside
the try/except) instead of returning an empty SceneModel. -/
theorem run_zero_landmarks_raises_counterexample :
    exSceneZeroTracks.number_tracks = 0 ∧
    baShared.run optIdentity zeroErrFn exSceneZeroTracks
      = .error "ValuesKeyDoesNotExist" :=
  ⟨rfl, rfl⟩

/-- Witness for C6 (amended) at a concrete zero-landmark scene with
per-camera calibration. -/
theorem run_zero_landmarks_witness :
    (exSceneZeroTracks.tracks = []) ∧
    (optIdentity (baPerCam.buildGraphAndValues exSceneZeroTracks).1
        (baPerCam.buildGraphAndValues exSceneZeroTracks).2
      = .ok (baPerCam.buildGraphAndValues exSceneZeroTracks).2) ∧
    (∃ out, baPerCam.run optIdentity zeroErrFn exSceneZeroTracks = .ok out ∧
      out.tracks = [] ∧
      out.cameras.map Prod.fst = exSceneZeroTracks.cameras.map Prod.fst ∧
      out.number_images = exSceneZeroTracks.number_images) :=
  ⟨rfl, rfl,
    run_zero_landmarks baPerCam optIdentity zeroErrFn exSceneZeroTracks
      (baPerCam.buildGraphAndValues exSceneZeroTracks).2 rfl rfl (fun _ => rfl)
      (fun h => by cases h)⟩



/-- With shared calibration, a measurement factor of any track references
K 0 in the built graph. -/
lemma graph_has_K0 (ba : BundleAdjustmentOptimizer) (d : GtsfmData)
    (hsh : ba.shared_calib = true)
    (htrk : ∃ t ∈ d.tracks, t.measurements ≠ []) :
    BAKey.K 0 ∈ graphKeys (ba.buildGraphAndValues d).1 := by
  obtain ⟨t, ht, hm⟩ := htrk
  obtain ⟨m, hmem⟩ := List.exists_mem_of_ne_nil _ hm
  obtain ⟨j, hj⟩ := exists_enum_of_mem d.tracks t ht 0
  rw [buildGraphAndValues_eq]
  dsimp only
  unfold graphKeys
  rw [List.mem_flatMap]
  refine ⟨BAFactor.generalSFMFactor2 m.2 ⟨IMG_MEASUREMENT_DIM, MEASUREMENT_NOISE_SIGMA⟩
      (BAKey.X m.1) (BAKey.P j) (BAKey.K 0), ?_, ?_⟩
  · rw [List.mem_append]
    left
    rw [List.mem_flatMap]
    refine ⟨(j, t), hj, ?_⟩
    unfold trackFactors
    rw [List.mem_map]
    refine ⟨m, hmem, ?_⟩
    rw [hsh]
    rfl
  · unfold BAFactor.keys
    simp

/-- Claim C10: with shared calibration, the single calibration variable is
keyed to camera index 0; on a scene with at least one (measurement-bearing)
track whose valid camera indices exclude 0, no calibration initial value or
calibration prior is inserted while the measurement factors reference K 0,
so the solve faults on the missing variable and run returns the empty
SceneModel through its failure path. -/
theorem shared_calib_missing_cam0 (ba : BundleAdjustmentOptimizer)
    (optimize : Optimizer) (errFn : SfmTrack → ℚ) (d : GtsfmData)
    (hsh : ba.shared_calib = true)
    (htrk : ∃ t ∈ d.tracks, t.measurements ≠ [])
    (h0 : 0 ∉ d.cameras.map Prod.fst)
    (hopt : ∀ g v, (∃ k ∈ graphKeys g, List.lookup k v = none) →
      optimize g v = .error ()) :
    countCalValues (ba.buildGraphAndValues d).2 = 0 ∧
    countCalPriors (ba.buildGraphAndValues d).1 = 0 ∧
    BAKey.K 0 ∈ graphKeys (ba.buildGraphAndValues d).1 ∧
    ba.run optimize errFn d = .ok (GtsfmData.empty d.number_images) := by
  have hcount : d.cameras.countP (fun ic => ic.1 == 0 || !ba.shared_calib) = 0 := by
    rw [List.countP_eq_zero]
    intro ic hic
    rw [hsh]
    simp only [Bool.not_true, Bool.or_false]
    intro hbeq
    apply h0
    rw [List.mem_map]
    exact ⟨ic, hic, eq_of_beq hbeq⟩
  have hK0 := graph_has_K0 ba d hsh htrk
  refine ⟨?_, ?_, hK0, ?_⟩
  · rw [countCalValues_build]
    exact hcount
  · rw [countCalPriors_build]
    exact hcount
  · have hnone : List.lookup (BAKey.K 0) (ba.buildGraphAndValues d).2 = none :=
      values_lookup_none _ _ (built_values_no_K0 ba d h0)
    have hfail := hopt (ba.buildGraphAndValues d).1 (ba.buildGraphAndValues d).2
      ⟨BAKey.K 0, hK0, hnone⟩
    unfold BundleAdjustmentOptimizer.run
    dsimp only
    rw [hfail]

lemma optMissingKeyFault_spec :
    ∀ g v, (∃ k ∈ graphKeys g, List.lookup k v = none) →
      optMissingKeyFault g v = .error () := by
  intro g v h
  obtain ⟨k, hk, hnone⟩ := h
  unfold optMissingKeyFault
  rw [if_pos]
  rw [List.any_eq_true]
  unfold graphKeys at hk
  rw [List.mem_flatMap] at hk
  obtain ⟨f, hf, hkf⟩ := hk
  refine ⟨f, hf, ?_⟩
  rw [List.any_eq_true]
  refine ⟨k, hkf, ?_⟩
  rw [hnone]
  rfl

/-- Witness for C10 at a concrete shared-calibration scene whose only valid
camera index is 1. -/
theorem shared_calib_missing_cam0_witness :
    (baShared.shared_calib = true) ∧
    (∃ t ∈ exSceneNoCam0.tracks, t.measurements ≠ []) ∧
    (0 ∉ exSceneNoCam0.cameras.map Prod.fst) ∧
    (countCalValues (baShared.buildGraphAndValues exSceneNoCam0).2 = 0 ∧
     countCalPriors (baShared.buildGraphAndValues exSceneNoCam0).1 = 0 ∧
     BAKey.K 0 ∈ graphKeys (baShared.buildGraphAndValues exSceneNoCam0).1 ∧
     baShared.run optMissingKeyFault zeroErrFn exSceneNoCam0
       = .ok (GtsfmData.empty exSceneNoCam0.number_images)) :=
  ⟨rfl, by decide, by decide,
    shared_calib_missing_cam0 baShared optMissingKeyFault zeroErrFn exSceneNoCam0
      rfl (by decide) (by decide) optMissingKeyFault_spec⟩


end Gtsfm
